import Mathlib

/-!
SQL statement generator: embedding and verification.

Shallow embedding of `dbmeta/db_utils.go` from the `gen` repository:
a SQL statement generator producing insert / update / hard-delete /
soft-delete / select-one / select-multi / select-all statements from
read-only table metadata.

Go's `(string, error)` return pairs are modelled as `String × Option String`
(`none` = nil error, `some msg` = error with message `msg`).  Each Go
`for _, col := range dbTable.Columns()` loop is translated as a recursive
helper over the column list carrying the loop's mutable state (buffer and
counters) as parameters, line by line from the source.
-/

namespace DbMeta

/-- Column metadata view: `Name()`, `ColumnType()`, `IsPrimaryKey()`,
`IsAutoIncrement()`. -/
structure ColumnMeta where
  name : String
  columnType : String
  isPrimaryKey : Bool
  isAutoIncrement : Bool
deriving DecidableEq, Repr

/-- Table metadata view: `TableName()` and the ordered `Columns()` list. -/
structure DbTableMeta where
  tableName : String
  columns : List ColumnMeta
deriving DecidableEq, Repr

/-- Message of the error returned when the table has no primary key:
`fmt.Errorf("table %s does not have a primary key, cannot generate sql", ...)`. -/
def noPrimaryKeyMsg (tableName : String) : String :=
  "table " ++ tableName ++ " does not have a primary key, cannot generate sql"

/-- Message of the error returned by the soft-delete generator when the table
has no `deleted_at` / `DeletedAt` column. -/
def noDeletedAtMsg (tableName : String) : String :=
  "table " ++ tableName ++ " does not have a deleted at column, cannot generate sql"

/-- `PrimaryKeyCount`: counts the columns with `IsPrimaryKey()`. -/
def PrimaryKeyCount (dbTable : DbTableMeta) : Nat :=
  dbTable.columns.foldl (fun primaryKeys col =>
    if col.isPrimaryKey then primaryKeys + 1 else primaryKeys) 0

/-- `PrimaryKeyNames`: names of the primary-key columns in table order. -/
def PrimaryKeyNames (dbTable : DbTableMeta) : List String :=
  dbTable.columns.foldl (fun acc col =>
    if col.isPrimaryKey then acc ++ [col.name] else acc) []

/-- `NonPrimaryKeyNames`: names of the non-primary-key columns in table order. -/
def NonPrimaryKeyNames (dbTable : DbTableMeta) : List String :=
  dbTable.columns.foldl (fun acc col =>
    if !col.isPrimaryKey then acc ++ [col.name] else acc) []

/-- Loop body of `GenerateHardDeleteSQL`: state is `(buf, addedKey)`. -/
def hardDeleteLoop (namedParams : Bool) (primaryCnt : Nat) :
    List ColumnMeta → String → Nat → String
  | [], buf, _ => buf
  | col :: rest, buf, addedKey =>
    if col.isPrimaryKey then
      let param := if namedParams then
          "@" ++ col.name ++ "_" ++ toString addedKey
        else "$" ++ toString addedKey
      let buf' := buf ++ " " ++ col.name ++ " = " ++ param
      let addedKey' := addedKey + 1
      let buf'' := if addedKey' < primaryCnt then buf' ++ " AND" else buf'
      hardDeleteLoop namedParams primaryCnt rest buf'' addedKey'
    else
      hardDeleteLoop namedParams primaryCnt rest buf addedKey

/-- `GenerateHardDeleteSQL`: generate sql for a delete. -/
def GenerateHardDeleteSQL (dbTable : DbTableMeta) (namedParams : Bool) :
    String × Option String :=
  let primaryCnt := PrimaryKeyCount dbTable
  if primaryCnt = 0 then
    ("", some (noPrimaryKeyMsg dbTable.tableName))
  else
    (hardDeleteLoop namedParams primaryCnt dbTable.columns
      ("DELETE FROM \"" ++ dbTable.tableName ++ "\" where") 1, none)

/-- Is this column literally named `deleted_at` or `DeletedAt`?  (The Go loop
`continue`s when `col.Name() != "deleted_at" && col.Name() != "DeletedAt"`.) -/
def isDeletedAtCol (col : ColumnMeta) : Bool :=
  col.name == "deleted_at" || col.name == "DeletedAt"

/-- SET-clause loop of `GenerateSoftDeleteSQL`: state is `(buf, setCol)`. -/
def softDeleteSetLoop (namedParams : Bool) :
    List ColumnMeta → String → Nat → String × Nat
  | [], buf, setCol => (buf, setCol)
  | col :: rest, buf, setCol =>
    if isDeletedAtCol col then
      let buf' := if setCol ≠ 1 then buf ++ "," else buf
      let param := if namedParams then
          "@upd_" ++ col.name ++ "_" ++ toString setCol
        else "$" ++ toString setCol
      softDeleteSetLoop namedParams rest
        (buf' ++ " " ++ col.name ++ " = " ++ param) (setCol + 1)
    else
      softDeleteSetLoop namedParams rest buf setCol

/-- WHERE-clause loop of `GenerateSoftDeleteSQL`: continues with the same
`setCol` counter (no `AND` separators are written in the source). -/
def softDeleteWhereLoop (namedParams : Bool) :
    List ColumnMeta → String → Nat → String
  | [], buf, _ => buf
  | col :: rest, buf, setCol =>
    if col.isPrimaryKey then
      let param := if namedParams then "@" ++ col.name else "$" ++ toString setCol
      softDeleteWhereLoop namedParams rest
        (buf ++ " " ++ col.name ++ " = " ++ param) (setCol + 1)
    else
      softDeleteWhereLoop namedParams rest buf setCol

/-- `GenerateSoftDeleteSQL`: generate sql for a soft delete (update). -/
def GenerateSoftDeleteSQL (dbTable : DbTableMeta) (namedParams : Bool) :
    String × Option String :=
  let primaryCnt := PrimaryKeyCount dbTable
  if primaryCnt = 0 then
    ("", some (noPrimaryKeyMsg dbTable.tableName))
  else
    let st := softDeleteSetLoop namedParams dbTable.columns
      ("UPDATE \"" ++ dbTable.tableName ++ "\" set") 1
    if st.2 = 1 then
      ("", some (noDeletedAtMsg dbTable.tableName))
    else
      (softDeleteWhereLoop namedParams dbTable.columns (st.1 ++ " WHERE") st.2, none)

/-- SET-clause loop of `GenerateUpdateSQL`: state is `(buf, setCol)`, over the
non-primary-key columns. -/
def updateSetLoop (namedParams : Bool) :
    List ColumnMeta → String → Nat → String × Nat
  | [], buf, setCol => (buf, setCol)
  | col :: rest, buf, setCol =>
    if !col.isPrimaryKey then
      let buf' := if setCol ≠ 1 then buf ++ "," else buf
      let param := if namedParams then "@" ++ col.name else "$" ++ toString setCol
      updateSetLoop namedParams rest
        (buf' ++ " " ++ col.name ++ " = " ++ param) (setCol + 1)
    else
      updateSetLoop namedParams rest buf setCol

/-- WHERE-clause loop of `GenerateUpdateSQL`: state is `(buf, setCol, addedKey)`;
the positional placeholder is `$(addedKey+setCol)` and both counters keep
running. -/
def updateWhereLoop (namedParams : Bool) (primaryCnt : Nat) :
    List ColumnMeta → String → Nat → Nat → String
  | [], buf, _, _ => buf
  | col :: rest, buf, setCol, addedKey =>
    if col.isPrimaryKey then
      let param := if namedParams then "@where_" ++ col.name
        else "$" ++ toString (addedKey + setCol)
      let buf' := buf ++ " " ++ col.name ++ " = " ++ param
      let setCol' := setCol + 1
      let addedKey' := addedKey + 1
      let buf'' := if addedKey' < primaryCnt then buf' ++ " AND" else buf'
      updateWhereLoop namedParams primaryCnt rest buf'' setCol' addedKey'
    else
      updateWhereLoop namedParams primaryCnt rest buf setCol addedKey

/-- `GenerateUpdateSQL`: generate sql for an update. -/
def GenerateUpdateSQL (dbTable : DbTableMeta) (namedParams : Bool) :
    String × Option String :=
  let primaryCnt := PrimaryKeyCount dbTable
  if primaryCnt = 0 then
    ("", some (noPrimaryKeyMsg dbTable.tableName))
  else
    let st := updateSetLoop namedParams dbTable.columns
      ("UPDATE \"" ++ dbTable.tableName ++ "\" SET") 1
    (updateWhereLoop namedParams primaryCnt dbTable.columns
      (st.1 ++ " WHERE") st.2 1, none)

/-- Column-list loop of `GenerateInsertSQL`: state is `(buf, pastFirst)`. -/
def insertColumnLoop : List ColumnMeta → String → Bool → String
  | [], buf, _ => buf
  | col :: rest, buf, pastFirst =>
    if !col.isAutoIncrement then
      let buf' := if pastFirst then buf ++ ", " else buf
      insertColumnLoop rest (buf' ++ " " ++ col.name) true
    else
      insertColumnLoop rest buf pastFirst

/-- VALUES-list loop of `GenerateInsertSQL`: the Go `for i, col := range` index
`i` is carried explicitly; state is `(buf, pastFirst)`.  A primary-key column
yields the literal `default` regardless of mode; otherwise the positional
placeholder is `$(i+1)` by original column index. -/
def insertValuesLoop (namedParams : Bool) :
    List ColumnMeta → Nat → String → Bool → String
  | [], _, buf, _ => buf
  | col :: rest, i, buf, pastFirst =>
    if !col.isAutoIncrement then
      let buf' := if pastFirst then buf ++ ", " else buf
      let param := if col.isPrimaryKey then "default"
        else if namedParams then "@" ++ col.name
        else "$" ++ toString (i + 1)
      insertValuesLoop namedParams rest (i + 1) (buf' ++ param) true
    else
      insertValuesLoop namedParams rest (i + 1) buf pastFirst

/-- `GenerateInsertSQL`: generate sql for an insert. -/
def GenerateInsertSQL (dbTable : DbTableMeta) (namedParams : Bool) :
    String × Option String :=
  let primaryCnt := PrimaryKeyCount dbTable
  if primaryCnt = 0 then
    ("", some (noPrimaryKeyMsg dbTable.tableName))
  else
    let cols := insertColumnLoop dbTable.columns
      ("INSERT INTO \"" ++ dbTable.tableName ++ "\" (") false
    (insertValuesLoop namedParams dbTable.columns 0
      (cols ++ ") values ( ") false ++ " )", none)

/-- WHERE loop of `GenerateSelectOneSQL`: `for i, col := range` with state
`(buf, pastFirst)`; the separator `" AND "` is written before every term but
the first. -/
def selectOneLoop (namedParams : Bool) :
    List ColumnMeta → Nat → String → Bool → String
  | [], _, buf, _ => buf
  | col :: rest, i, buf, pastFirst =>
    if col.isPrimaryKey then
      let buf' := if pastFirst then buf ++ " AND " else buf
      let param := if namedParams then
          "@where_" ++ col.name ++ "_" ++ toString (i + 1)
        else "$" ++ toString (i + 1)
      selectOneLoop namedParams rest (i + 1)
        (buf' ++ " " ++ col.name ++ " = " ++ param) true
    else
      selectOneLoop namedParams rest (i + 1) buf pastFirst

/-- `GenerateSelectOneSQL`: generate sql for selecting one record. -/
def GenerateSelectOneSQL (dbTable : DbTableMeta) (namedParams : Bool) :
    String × Option String :=
  let primaryCnt := PrimaryKeyCount dbTable
  if primaryCnt = 0 then
    ("", some (noPrimaryKeyMsg dbTable.tableName))
  else
    (selectOneLoop namedParams dbTable.columns 0
      ("SELECT * FROM \"" ++ dbTable.tableName ++ "\" WHERE") false, none)

/-- WHERE loop of `GenerateSelectMultiSQL`: like select-one, but each
comparison is `<name> = ANY(<param>::<type>[])`. -/
def selectMultiLoop (namedParams : Bool) :
    List ColumnMeta → Nat → String → Bool → String
  | [], _, buf, _ => buf
  | col :: rest, i, buf, pastFirst =>
    if col.isPrimaryKey then
      let buf' := if pastFirst then buf ++ " AND " else buf
      let param := if namedParams then
          "@where_" ++ col.name ++ "_" ++ toString (i + 1)
        else "$" ++ toString (i + 1)
      selectMultiLoop namedParams rest (i + 1)
        (buf' ++ " " ++ col.name ++ " = ANY(" ++ param ++ "::" ++
          col.columnType ++ "[])") true
    else
      selectMultiLoop namedParams rest (i + 1) buf pastFirst

/-- `GenerateSelectMultiSQL`: generate sql for selecting multiple records. -/
def GenerateSelectMultiSQL (dbTable : DbTableMeta) (namedParams : Bool) :
    String × Option String :=
  let primaryCnt := PrimaryKeyCount dbTable
  if primaryCnt = 0 then
    ("", some (noPrimaryKeyMsg dbTable.tableName))
  else
    (selectMultiLoop namedParams dbTable.columns 0
      ("SELECT * FROM \"" ++ dbTable.tableName ++ "\" WHERE") false, none)

/-- `GenerateSelectAllSQL`: generate sql for selecting all records; it takes no
`namedParams` boolean but still checks for a primary key. -/
def GenerateSelectAllSQL (dbTable : DbTableMeta) : String × Option String :=
  let primaryCnt := PrimaryKeyCount dbTable
  if primaryCnt = 0 then
    ("", some (noPrimaryKeyMsg dbTable.tableName))
  else
    ("SELECT * FROM \"" ++ dbTable.tableName ++ "\"", none)

/-! ## Concrete tables used in the spec's scenarios -/

/-- The spec's `users` table: `id` (primary key, auto-increment, type `int`),
`name` (type `text`), `deleted_at` (type `timestamptz`). -/
def usersTable : DbTableMeta :=
  { tableName := "users"
    columns :=
      [ { name := "id", columnType := "int", isPrimaryKey := true,
          isAutoIncrement := true }
      , { name := "name", columnType := "text", isPrimaryKey := false,
          isAutoIncrement := false }
      , { name := "deleted_at", columnType := "timestamptz",
          isPrimaryKey := false, isAutoIncrement := false } ] }

/-- The spec's table `t` whose only columns are the two primary keys `a`, `b`. -/
def tTable : DbTableMeta :=
  { tableName := "t"
    columns :=
      [ { name := "a", columnType := "int", isPrimaryKey := true,
          isAutoIncrement := false }
      , { name := "b", columnType := "int", isPrimaryKey := true,
          isAutoIncrement := false } ] }

/-- A table with two primary keys and a `deleted_at` column, used to examine
the soft-delete WHERE clause. -/
def t2Table : DbTableMeta :=
  { tableName := "t2"
    columns :=
      [ { name := "a", columnType := "int", isPrimaryKey := true,
          isAutoIncrement := false }
      , { name := "b", columnType := "int", isPrimaryKey := true,
          isAutoIncrement := false }
      , { name := "deleted_at", columnType := "timestamptz",
          isPrimaryKey := false, isAutoIncrement := false } ] }

/-- A table with a name but no columns at all, hence no primary key. -/
def keylessTable : DbTableMeta :=
  { tableName := "keyless"
    columns :=
      [ { name := "x", columnType := "int", isPrimaryKey := false,
          isAutoIncrement := false } ] }

/-! ## Spec-side views: the clause each generator emits, described over the
filtered column lists the spec talks about.  Each builder is compared with the
corresponding source loop by an inductive bridge lemma. -/

/-- The primary-key columns, in table order. -/
def pkCols (t : DbTableMeta) : List ColumnMeta :=
  t.columns.filter (fun c => c.isPrimaryKey)

/-- The non-primary-key columns, in table order. -/
def nonPkCols (t : DbTableMeta) : List ColumnMeta :=
  t.columns.filter (fun c => !c.isPrimaryKey)

/-- The columns named exactly `deleted_at` or `DeletedAt`, in table order. -/
def deletedAtCols (t : DbTableMeta) : List ColumnMeta :=
  t.columns.filter isDeletedAtCol

/-- The non-auto-increment columns, in table order. -/
def nonAutoCols (t : DbTableMeta) : List ColumnMeta :=
  t.columns.filter (fun c => !c.isAutoIncrement)

/-- The non-auto-increment columns paired with their original 0-based index in
the full column list. -/
def nonAutoIdxCols (t : DbTableMeta) : List (Nat × ColumnMeta) :=
  (List.enumFrom 0 t.columns).filter (fun ic => !ic.2.isAutoIncrement)

/-- The primary-key columns paired with their original 0-based index in the
full column list. -/
def pkIdxCols (t : DbTableMeta) : List (Nat × ColumnMeta) :=
  (List.enumFrom 0 t.columns).filter (fun ic => ic.2.isPrimaryKey)

/-- Soft-delete SET clause over the deleted-at columns: the `n`-th such column
(1-based counter `setCol`) gets placeholder `$n`, or `@upd_<colname>_<n>` in
named mode. -/
def softDeleteSetClause (namedParams : Bool) : List ColumnMeta → Nat → String
  | [], _ => ""
  | col :: rest, setCol =>
    (if setCol ≠ 1 then "," else "") ++ " " ++ col.name ++ " = " ++
      (if namedParams then "@upd_" ++ col.name ++ "_" ++ toString setCol
       else "$" ++ toString setCol) ++
    softDeleteSetClause namedParams rest (setCol + 1)

/-- Soft-delete WHERE clause over the primary-key columns: positional
numbering continues with the shared `setCol` counter; in named mode the
placeholder is `@<colname>` with no suffix.  No separator is emitted between
consecutive terms. -/
def softDeleteWhereClause (namedParams : Bool) : List ColumnMeta → Nat → String
  | [], _ => ""
  | col :: rest, setCol =>
    " " ++ col.name ++ " = " ++
      (if namedParams then "@" ++ col.name else "$" ++ toString setCol) ++
    softDeleteWhereClause namedParams rest (setCol + 1)

/-- Update SET clause over the non-primary-key columns: the `n`-th one gets
`$n` (counting 1..nonPkCount), or `@<colname>` in named mode. -/
def updateSetClause (namedParams : Bool) : List ColumnMeta → Nat → String
  | [], _ => ""
  | col :: rest, setCol =>
    (if setCol ≠ 1 then "," else "") ++ " " ++ col.name ++ " = " ++
      (if namedParams then "@" ++ col.name else "$" ++ toString setCol) ++
    updateSetClause namedParams rest (setCol + 1)

/-- Update WHERE clause over the primary-key columns: the `n`-th primary key
(1-based `n`) gets positional placeholder `$(n + setCount)` where `setCount`
is the still-running SET counter (it left off at nonPkCount + 1 and keeps
incrementing here as well), or `@where_<colname>` in named mode.  An `" AND"`
separator follows a term only while `n + 1 < primaryCnt`. -/
def updateWhereClause (namedParams : Bool) (primaryCnt : Nat) :
    List ColumnMeta → Nat → Nat → String
  | [], _, _ => ""
  | col :: rest, setCount, n =>
    " " ++ col.name ++ " = " ++
      (if namedParams then "@where_" ++ col.name
       else "$" ++ toString (n + setCount)) ++
    (if n + 1 < primaryCnt then " AND" else "") ++
    updateWhereClause namedParams primaryCnt rest (setCount + 1) (n + 1)

/-- Insert column list over the non-auto-increment columns: entries are
`" <colname>"`, separated by `", "`. -/
def insertColumnClause : List ColumnMeta → Bool → String
  | [], _ => ""
  | col :: rest, pastFirst =>
    (if pastFirst then ", " else "") ++ " " ++ col.name ++
    insertColumnClause rest true

/-- Insert VALUES list over the non-auto-increment columns with their original
0-based index `i`: a primary-key column yields the literal `default` in both
modes; otherwise `$(i+1)` positionally or `@<colname>` in named mode. -/
def insertValuesClause (namedParams : Bool) :
    List (Nat × ColumnMeta) → Bool → String
  | [], _ => ""
  | ic :: rest, pastFirst =>
    (if pastFirst then ", " else "") ++
      (if ic.2.isPrimaryKey then "default"
       else if namedParams then "@" ++ ic.2.name
       else "$" ++ toString (ic.1 + 1)) ++
    insertValuesClause namedParams rest true

/-- Select-one WHERE clause over the primary-key columns with their original
0-based index `i`: placeholder `$(i+1)` positionally, `@where_<colname>_<i+1>`
in named mode; `" AND "` is written before every term but the first. -/
def selectOneWhereClause (namedParams : Bool) :
    List (Nat × ColumnMeta) → Bool → String
  | [], _ => ""
  | ic :: rest, pastFirst =>
    (if pastFirst then " AND " else "") ++ " " ++ ic.2.name ++ " = " ++
      (if namedParams then "@where_" ++ ic.2.name ++ "_" ++ toString (ic.1 + 1)
       else "$" ++ toString (ic.1 + 1)) ++
    selectOneWhereClause namedParams rest true

/-- Select-multi WHERE clause: same placeholder rule as select-one, but each
comparison is `<colname> = ANY(<placeholder>::<declared type>[])`, with the
column's declared type used verbatim in the array cast. -/
def selectMultiWhereClause (namedParams : Bool) :
    List (Nat × ColumnMeta) → Bool → String
  | [], _ => ""
  | ic :: rest, pastFirst =>
    (if pastFirst then " AND " else "") ++ " " ++ ic.2.name ++ " = ANY(" ++
      (if namedParams then "@where_" ++ ic.2.name ++ "_" ++ toString (ic.1 + 1)
       else "$" ++ toString (ic.1 + 1)) ++
    "::" ++ ic.2.columnType ++ "[])" ++
    selectMultiWhereClause namedParams rest true

/-! ## Bridge lemmas: each source loop equals its spec-side clause builder. -/

theorem primaryKeyCount_foldl (l : List ColumnMeta) :
    ∀ n : Nat,
      l.foldl (fun primaryKeys col =>
        if col.isPrimaryKey then primaryKeys + 1 else primaryKeys) n =
      n + (l.filter (fun c => c.isPrimaryKey)).length := by
  induction l with
  | nil => intro n; simp
  | cons c rest ih =>
    intro n
    by_cases hc : c.isPrimaryKey
    · simp [hc, ih, Nat.add_assoc, Nat.add_comm 1]
    · simp [hc, ih]

/-- `PrimaryKeyCount` is the number of primary-key columns. -/
theorem PrimaryKeyCount_eq (t : DbTableMeta) :
    PrimaryKeyCount t = (pkCols t).length := by
  simpa [PrimaryKeyCount, pkCols] using primaryKeyCount_foldl t.columns 0

theorem softDeleteSetLoop_eq (namedParams : Bool) (l : List ColumnMeta) :
    ∀ (buf : String) (setCol : Nat),
      softDeleteSetLoop namedParams l buf setCol =
        (buf ++ softDeleteSetClause namedParams (l.filter isDeletedAtCol) setCol,
         setCol + (l.filter isDeletedAtCol).length) := by
  induction l with
  | nil => intro buf setCol; simp [softDeleteSetLoop, softDeleteSetClause]
  | cons c rest ih =>
    intro buf setCol
    by_cases hc : isDeletedAtCol c
    · by_cases hs : setCol = 1 <;>
        simp [softDeleteSetLoop, hc, hs, softDeleteSetClause, ih,
          String.append_assoc, Nat.add_assoc, Nat.add_comm 1] <;> omega
    · simp [softDeleteSetLoop, hc, ih]

theorem softDeleteWhereLoop_eq (namedParams : Bool) (l : List ColumnMeta) :
    ∀ (buf : String) (setCol : Nat),
      softDeleteWhereLoop namedParams l buf setCol =
        buf ++ softDeleteWhereClause namedParams
          (l.filter (fun c => c.isPrimaryKey)) setCol := by
  induction l with
  | nil => intro buf setCol; simp [softDeleteWhereLoop, softDeleteWhereClause]
  | cons c rest ih =>
    intro buf setCol
    by_cases hc : c.isPrimaryKey
    · simp [softDeleteWhereLoop, hc, softDeleteWhereClause, ih,
        String.append_assoc]
    · simp [softDeleteWhereLoop, hc, ih]

theorem updateSetLoop_eq (namedParams : Bool) (l : List ColumnMeta) :
    ∀ (buf : String) (setCol : Nat),
      updateSetLoop namedParams l buf setCol =
        (buf ++ updateSetClause namedParams
            (l.filter (fun c => !c.isPrimaryKey)) setCol,
         setCol + (l.filter (fun c => !c.isPrimaryKey)).length) := by
  induction l with
  | nil => intro buf setCol; simp [updateSetLoop, updateSetClause]
  | cons c rest ih =>
    intro buf setCol
    by_cases hc : c.isPrimaryKey
    · simp [updateSetLoop, hc, ih]
    · by_cases hs : setCol = 1 <;>
        simp [updateSetLoop, hc, hs, updateSetClause, ih,
          String.append_assoc, Nat.add_assoc, Nat.add_comm 1] <;> omega

theorem updateWhereLoop_eq (namedParams : Bool) (primaryCnt : Nat)
    (l : List ColumnMeta) :
    ∀ (buf : String) (setCol addedKey : Nat),
      updateWhereLoop namedParams primaryCnt l buf setCol addedKey =
        buf ++ updateWhereClause namedParams primaryCnt
          (l.filter (fun c => c.isPrimaryKey)) setCol addedKey := by
  induction l with
  | nil => intro buf setCol addedKey; simp [updateWhereLoop, updateWhereClause]
  | cons c rest ih =>
    intro buf setCol addedKey
    by_cases hc : c.isPrimaryKey
    · by_cases ha : addedKey + 1 < primaryCnt <;>
        simp [updateWhereLoop, hc, ha, updateWhereClause, ih,
          String.append_assoc]
    · simp [updateWhereLoop, hc, ih]

theorem insertColumnLoop_eq (l : List ColumnMeta) :
    ∀ (buf : String) (pastFirst : Bool),
      insertColumnLoop l buf pastFirst =
        buf ++ insertColumnClause
          (l.filter (fun c => !c.isAutoIncrement)) pastFirst := by
  induction l with
  | nil => intro buf pastFirst; simp [insertColumnLoop, insertColumnClause]
  | cons c rest ih =>
    intro buf pastFirst
    by_cases hc : c.isAutoIncrement
    · simp [insertColumnLoop, hc, ih]
    · cases pastFirst <;>
        simp [insertColumnLoop, hc, insertColumnClause, ih,
          String.append_assoc]

theorem insertValuesLoop_eq (namedParams : Bool) (l : List ColumnMeta) :
    ∀ (i : Nat) (buf : String) (pastFirst : Bool),
      insertValuesLoop namedParams l i buf pastFirst =
        buf ++ insertValuesClause namedParams
          ((List.enumFrom i l).filter (fun ic => !ic.2.isAutoIncrement))
          pastFirst := by
  induction l with
  | nil =>
    intro i buf pastFirst
    simp [insertValuesLoop, List.enumFrom, insertValuesClause]
  | cons c rest ih =>
    intro i buf pastFirst
    by_cases hc : c.isAutoIncrement
    · simp [insertValuesLoop, hc, List.enumFrom, ih]
    · cases pastFirst <;>
        simp [insertValuesLoop, hc, List.enumFrom, insertValuesClause, ih,
          String.append_assoc]

theorem selectOneLoop_eq (namedParams : Bool) (l : List ColumnMeta) :
    ∀ (i : Nat) (buf : String) (pastFirst : Bool),
      selectOneLoop namedParams l i buf pastFirst =
        buf ++ selectOneWhereClause namedParams
          ((List.enumFrom i l).filter (fun ic => ic.2.isPrimaryKey))
          pastFirst := by
  induction l with
  | nil =>
    intro i buf pastFirst
    simp [selectOneLoop, List.enumFrom, selectOneWhereClause]
  | cons c rest ih =>
    intro i buf pastFirst
    by_cases hc : c.isPrimaryKey
    · cases pastFirst <;>
        simp [selectOneLoop, hc, List.enumFrom, selectOneWhereClause, ih,
          String.append_assoc]
    · simp [selectOneLoop, hc, List.enumFrom, ih]

theorem selectMultiLoop_eq (namedParams : Bool) (l : List ColumnMeta) :
    ∀ (i : Nat) (buf : String) (pastFirst : Bool),
      selectMultiLoop namedParams l i buf pastFirst =
        buf ++ selectMultiWhereClause namedParams
          ((List.enumFrom i l).filter (fun ic => ic.2.isPrimaryKey))
          pastFirst := by
  induction l with
  | nil =>
    intro i buf pastFirst
    simp [selectMultiLoop, List.enumFrom, selectMultiWhereClause]
  | cons c rest ih =>
    intro i buf pastFirst
    by_cases hc : c.isPrimaryKey
    · cases pastFirst <;>
        simp [selectMultiLoop, hc, List.enumFrom, selectMultiWhereClause, ih,
          String.append_assoc]
    · simp [selectMultiLoop, hc, List.enumFrom, ih]

/-- Forgetting the indices of the filtered enumerated list gives the filtered
list: the insert column list and VALUES list range over the same columns. -/
theorem enumFrom_filter_map_snd (p : ColumnMeta → Bool) (l : List ColumnMeta) :
    ∀ i : Nat,
      ((List.enumFrom i l).filter (fun ic => p ic.2)).map
        (fun ic => ic.2) = l.filter p := by
  induction l with
  | nil => intro i; simp [List.enumFrom]
  | cons c rest ih =>
    intro i
    by_cases hc : p c <;> simp [List.enumFrom, hc, ih]

/-! ## Characterizations of the generators on tables with a primary key. -/

theorem generateSoftDeleteSQL_ok (t : DbTableMeta) (namedParams : Bool)
    (h : PrimaryKeyCount t ≠ 0) (hd : deletedAtCols t ≠ []) :
    GenerateSoftDeleteSQL t namedParams =
      ("UPDATE \"" ++ t.tableName ++ "\" set" ++
        softDeleteSetClause namedParams (deletedAtCols t) 1 ++ " WHERE" ++
        softDeleteWhereClause namedParams (pkCols t)
          (1 + (deletedAtCols t).length), none) := by
  have hlen : (List.filter isDeletedAtCol t.columns).length ≠ 0 := by
    simpa [deletedAtCols, List.length_eq_zero] using hd
  simp only [GenerateSoftDeleteSQL, if_neg h,
    softDeleteSetLoop_eq namedParams t.columns]
  rw [if_neg (by omega)]
  rw [softDeleteWhereLoop_eq namedParams t.columns]
  simp [deletedAtCols, pkCols, String.append_assoc]

theorem generateSoftDeleteSQL_noDeletedAt (t : DbTableMeta)
    (namedParams : Bool) (h : PrimaryKeyCount t ≠ 0)
    (hd : deletedAtCols t = []) :
    GenerateSoftDeleteSQL t namedParams =
      ("", some (noDeletedAtMsg t.tableName)) := by
  simp only [GenerateSoftDeleteSQL, if_neg h,
    softDeleteSetLoop_eq namedParams t.columns]
  simp only [deletedAtCols] at hd
  rw [if_pos (by rw [hd]; rfl)]

theorem generateUpdateSQL_eq (t : DbTableMeta) (namedParams : Bool)
    (h : PrimaryKeyCount t ≠ 0) :
    GenerateUpdateSQL t namedParams =
      ("UPDATE \"" ++ t.tableName ++ "\" SET" ++
        updateSetClause namedParams (nonPkCols t) 1 ++ " WHERE" ++
        updateWhereClause namedParams (PrimaryKeyCount t) (pkCols t)
          (1 + (nonPkCols t).length) 1, none) := by
  simp only [GenerateUpdateSQL, if_neg h,
    updateSetLoop_eq namedParams t.columns]
  rw [updateWhereLoop_eq namedParams (PrimaryKeyCount t) t.columns]
  simp [nonPkCols, pkCols, String.append_assoc]

theorem generateInsertSQL_eq (t : DbTableMeta) (namedParams : Bool)
    (h : PrimaryKeyCount t ≠ 0) :
    GenerateInsertSQL t namedParams =
      ("INSERT INTO \"" ++ t.tableName ++ "\" (" ++
        insertColumnClause (nonAutoCols t) false ++ ") values ( " ++
        insertValuesClause namedParams (nonAutoIdxCols t) false ++ " )",
       none) := by
  simp only [GenerateInsertSQL, if_neg h, insertColumnLoop_eq t.columns]
  rw [insertValuesLoop_eq namedParams t.columns]
  simp [nonAutoCols, nonAutoIdxCols, String.append_assoc]

theorem generateSelectOneSQL_eq (t : DbTableMeta) (namedParams : Bool)
    (h : PrimaryKeyCount t ≠ 0) :
    GenerateSelectOneSQL t namedParams =
      ("SELECT * FROM \"" ++ t.tableName ++ "\" WHERE" ++
        selectOneWhereClause namedParams (pkIdxCols t) false, none) := by
  simp only [GenerateSelectOneSQL, if_neg h]
  rw [selectOneLoop_eq namedParams t.columns]
  simp [pkIdxCols, String.append_assoc]

theorem generateSelectMultiSQL_eq (t : DbTableMeta) (namedParams : Bool)
    (h : PrimaryKeyCount t ≠ 0) :
    GenerateSelectMultiSQL t namedParams =
      ("SELECT * FROM \"" ++ t.tableName ++ "\" WHERE" ++
        selectMultiWhereClause namedParams (pkIdxCols t) false, none) := by
  simp only [GenerateSelectMultiSQL, if_neg h]
  rw [selectMultiLoop_eq namedParams t.columns]
  simp [pkIdxCols, String.append_assoc]

theorem generateSelectAllSQL_eq (t : DbTableMeta)
    (h : PrimaryKeyCount t ≠ 0) :
    GenerateSelectAllSQL t =
      ("SELECT * FROM \"" ++ t.tableName ++ "\"", none) := by
  simp [GenerateSelectAllSQL, if_neg h]

theorem generateHardDeleteSQL_errNone (t : DbTableMeta) (namedParams : Bool)
    (h : PrimaryKeyCount t ≠ 0) :
    (GenerateHardDeleteSQL t namedParams).2 = none := by
  simp [GenerateHardDeleteSQL, if_neg h]

theorem generateUpdateSQL_errNone (t : DbTableMeta) (namedParams : Bool)
    (h : PrimaryKeyCount t ≠ 0) :
    (GenerateUpdateSQL t namedParams).2 = none := by
  simp [GenerateUpdateSQL, if_neg h]

theorem generateInsertSQL_errNone (t : DbTableMeta) (namedParams : Bool)
    (h : PrimaryKeyCount t ≠ 0) :
    (GenerateInsertSQL t namedParams).2 = none := by
  simp [GenerateInsertSQL, if_neg h]

theorem generateSelectOneSQL_errNone (t : DbTableMeta) (namedParams : Bool)
    (h : PrimaryKeyCount t ≠ 0) :
    (GenerateSelectOneSQL t namedParams).2 = none := by
  simp [GenerateSelectOneSQL, if_neg h]

theorem generateSelectMultiSQL_errNone (t : DbTableMeta) (namedParams : Bool)
    (h : PrimaryKeyCount t ≠ 0) :
    (GenerateSelectMultiSQL t namedParams).2 = none := by
  simp [GenerateSelectMultiSQL, if_neg h]

theorem generateSelectAllSQL_errNone (t : DbTableMeta)
    (h : PrimaryKeyCount t ≠ 0) :
    (GenerateSelectAllSQL t).2 = none := by
  simp [GenerateSelectAllSQL, if_neg h]

theorem deletedAtCols_ne_nil_of_mem (t : DbTableMeta)
    (hd : ∃ c ∈ t.columns, isDeletedAtCol c) : deletedAtCols t ≠ [] := by
  obtain ⟨c, hcmem, hcdel⟩ := hd
  intro hnil
  have := List.filter_eq_nil_iff.mp (by simpa [deletedAtCols] using hnil) c hcmem
  simp [hcdel] at this

theorem deletedAtCols_eq_nil_of_not_mem (t : DbTableMeta)
    (hd : ¬ ∃ c ∈ t.columns, isDeletedAtCol c) : deletedAtCols t = [] := by
  simp only [deletedAtCols]
  refine List.filter_eq_nil_iff.mpr ?_
  intro c hc hdel
  exact hd ⟨c, hc, hdel⟩

/-! ## Claims -/

/-- C1: for every table with zero primary-key columns and every value of
`namedParams`, each of the seven generators returns the empty string together
with the no-primary-key error, whose message contains the table name. -/
theorem C1_zero_primary_keys_all_generators_fail (t : DbTableMeta)
    (namedParams : Bool) (h : PrimaryKeyCount t = 0) :
    GenerateHardDeleteSQL t namedParams =
      ("", some (noPrimaryKeyMsg t.tableName)) ∧
    GenerateSoftDeleteSQL t namedParams =
      ("", some (noPrimaryKeyMsg t.tableName)) ∧
    GenerateUpdateSQL t namedParams = ("", some (noPrimaryKeyMsg t.tableName)) ∧
    GenerateInsertSQL t namedParams = ("", some (noPrimaryKeyMsg t.tableName)) ∧
    GenerateSelectOneSQL t namedParams =
      ("", some (noPrimaryKeyMsg t.tableName)) ∧
    GenerateSelectMultiSQL t namedParams =
      ("", some (noPrimaryKeyMsg t.tableName)) ∧
    GenerateSelectAllSQL t = ("", some (noPrimaryKeyMsg t.tableName)) ∧
    ∃ s1 s2, noPrimaryKeyMsg t.tableName = s1 ++ t.tableName ++ s2 := by
  refine ⟨?_, ?_, ?_, ?_, ?_, ?_, ?_,
    "table ", " does not have a primary key, cannot generate sql", rfl⟩ <;>
    simp [GenerateHardDeleteSQL, GenerateSoftDeleteSQL, GenerateUpdateSQL,
      GenerateInsertSQL, GenerateSelectOneSQL, GenerateSelectMultiSQL,
      GenerateSelectAllSQL, h]

/-- Witness for C1 at a concrete table with no primary key. -/
theorem C1_zero_primary_keys_all_generators_fail_witness :
    PrimaryKeyCount keylessTable = 0 ∧
    GenerateHardDeleteSQL keylessTable true =
      ("", some (noPrimaryKeyMsg "keyless")) ∧
    GenerateSelectAllSQL keylessTable =
      ("", some (noPrimaryKeyMsg "keyless")) := by
  have h := C1_zero_primary_keys_all_generators_fail keylessTable true rfl
  exact ⟨rfl, h.1, h.2.2.2.2.2.2.1⟩

/-- C2: the claim's concrete scenario fails on the code.  For table `t` whose
only columns are the two primary keys `a` and `b`, hard delete in named mode
emits no `" AND"` between the two conjuncts: the separator condition
`addedKey < primaryCnt` is tested after `addedKey` — which starts at 1 to
number the placeholders — has been incremented, so with two primary keys it is
already 2 after the first conjunct and the separator is never written.  The
code therefore returns `DELETE FROM "t" where a = @a_1 b = @b_2`, not the
claimed AND-joined statement. -/
theorem C2_hard_delete_missing_and :
    GenerateHardDeleteSQL tTable true =
      ("DELETE FROM \"t\" where a = @a_1 b = @b_2", none) ∧
    GenerateHardDeleteSQL tTable true ≠
      ("DELETE FROM \"t\" where a = @a_1 AND b = @b_2", none) :=
  ⟨rfl, by decide⟩

/-- C3 counterexample: at the `users` table in positional mode the code does
not produce the two byte-exact strings the claim states (the insert column
list has two spaces after the comma, and select-one has a single space after
`WHERE`). -/
theorem C3_users_claimed_strings_false :
    ¬ (GenerateInsertSQL usersTable false =
        ("INSERT INTO \"users\" ( name, deleted_at) values ( $2, $3 )",
         none) ∧
       GenerateSelectOneSQL usersTable false =
        ("SELECT * FROM \"users\" WHERE  id = $1", none)) := by
  decide

/-- C3 (amended): at the `users` table in positional mode, insert returns
exactly `INSERT INTO "users" ( name,  deleted_at) values ( $2, $3 )` — with
two spaces between the comma and `deleted_at`, since the `", "` separator is
followed by an entry with its own leading space — and select-one returns
exactly `SELECT * FROM "users" WHERE id = $1`, with a single space after
`WHERE`; both with a nil error. -/
theorem C3_users_insert_select_one_exact :
    GenerateInsertSQL usersTable false =
      ("INSERT INTO \"users\" ( name,  deleted_at) values ( $2, $3 )",
       none) ∧
    GenerateSelectOneSQL usersTable false =
      ("SELECT * FROM \"users\" WHERE id = $1", none) :=
  ⟨rfl, rfl⟩

/-- C4: for every table with at least one primary key and at least one column
named exactly `deleted_at` or `DeletedAt`, soft delete succeeds; its SET
clause ranges over exactly those columns, with named placeholder
`@upd_<colname>_<n>`; each named WHERE placeholder is `@<colname>` with no
suffix; and the positional WHERE numbering continues from where the SET
numbering left off (shared counter, starting at 1 + number of deleted-at
columns).  On the `users` table in positional mode the output is exactly
`UPDATE "users" set deleted_at = $1 WHERE id = $2`. -/
theorem C4_soft_delete_shape (t : DbTableMeta) (namedParams : Bool)
    (h : 1 ≤ PrimaryKeyCount t)
    (hd : ∃ c ∈ t.columns, isDeletedAtCol c) :
    GenerateSoftDeleteSQL t namedParams =
      ("UPDATE \"" ++ t.tableName ++ "\" set" ++
        softDeleteSetClause namedParams (deletedAtCols t) 1 ++ " WHERE" ++
        softDeleteWhereClause namedParams (pkCols t)
          (1 + (deletedAtCols t).length), none) ∧
    GenerateSoftDeleteSQL usersTable false =
      ("UPDATE \"users\" set deleted_at = $1 WHERE id = $2", none) :=
  ⟨generateSoftDeleteSQL_ok t namedParams (by omega)
      (deletedAtCols_ne_nil_of_mem t hd),
   rfl⟩

/-- Witness for C4 at the `users` table in positional mode. -/
theorem C4_soft_delete_shape_witness :
    1 ≤ PrimaryKeyCount usersTable ∧
    (∃ c ∈ usersTable.columns, isDeletedAtCol c) ∧
    GenerateSoftDeleteSQL usersTable false =
      ("UPDATE \"" ++ usersTable.tableName ++ "\" set" ++
        softDeleteSetClause false (deletedAtCols usersTable) 1 ++ " WHERE" ++
        softDeleteWhereClause false (pkCols usersTable)
          (1 + (deletedAtCols usersTable).length), none) :=
  ⟨by decide, by decide,
   (C4_soft_delete_shape usersTable false (by decide) (by decide)).1⟩

/-- C5: the claim fails on the code.  On a table with two primary keys `a`,
`b` and a `deleted_at` column, the soft-delete WHERE loop writes no `" AND"`
separator at all between the equality terms, so the claimed AND-joined shape
`... WHERE a = $2 AND b = $3` is not produced; the code emits the terms
space-concatenated instead. -/
theorem C5_soft_delete_where_missing_and :
    GenerateSoftDeleteSQL t2Table false =
      ("UPDATE \"t2\" set deleted_at = $1 WHERE a = $2 b = $3", none) ∧
    GenerateSoftDeleteSQL t2Table false ≠
      ("UPDATE \"t2\" set deleted_at = $1 WHERE a = $2 AND b = $3", none) :=
  ⟨rfl, by decide⟩

/-- C6: for every table with at least one primary key, soft delete returns the
empty string together with the no-deleted-at-column error — whose message
contains the table name — if and only if no column is named exactly
`deleted_at` or `DeletedAt`; and no other generator returns that error. -/
theorem C6_no_deleted_at_error (t : DbTableMeta) (namedParams : Bool)
    (h : 1 ≤ PrimaryKeyCount t) :
    (GenerateSoftDeleteSQL t namedParams =
        ("", some (noDeletedAtMsg t.tableName)) ↔
      ¬ ∃ c ∈ t.columns, isDeletedAtCol c) ∧
    (∃ s1 s2, noDeletedAtMsg t.tableName = s1 ++ t.tableName ++ s2) ∧
    (GenerateHardDeleteSQL t namedParams).2 ≠
      some (noDeletedAtMsg t.tableName) ∧
    (GenerateUpdateSQL t namedParams).2 ≠ some (noDeletedAtMsg t.tableName) ∧
    (GenerateInsertSQL t namedParams).2 ≠ some (noDeletedAtMsg t.tableName) ∧
    (GenerateSelectOneSQL t namedParams).2 ≠
      some (noDeletedAtMsg t.tableName) ∧
    (GenerateSelectMultiSQL t namedParams).2 ≠
      some (noDeletedAtMsg t.tableName) ∧
    (GenerateSelectAllSQL t).2 ≠ some (noDeletedAtMsg t.tableName) := by
  have h0 : PrimaryKeyCount t ≠ 0 := by omega
  refine ⟨⟨?_, ?_⟩,
    ⟨"table ", " does not have a deleted at column, cannot generate sql",
      rfl⟩, ?_, ?_, ?_, ?_, ?_, ?_⟩
  · intro heq hex
    have hok := generateSoftDeleteSQL_ok t namedParams h0
      (deletedAtCols_ne_nil_of_mem t hex)
    rw [hok] at heq
    have := congrArg Prod.snd heq
    simp at this
  · intro hnex
    exact generateSoftDeleteSQL_noDeletedAt t namedParams h0
      (deletedAtCols_eq_nil_of_not_mem t hnex)
  · rw [generateHardDeleteSQL_errNone t namedParams h0]; simp
  · rw [generateUpdateSQL_errNone t namedParams h0]; simp
  · rw [generateInsertSQL_errNone t namedParams h0]; simp
  · rw [generateSelectOneSQL_errNone t namedParams h0]; simp
  · rw [generateSelectMultiSQL_errNone t namedParams h0]; simp
  · rw [generateSelectAllSQL_errNone t h0]; simp

/-- Witness for C6: table `t` has primary keys but no deleted-at column, so
soft delete returns exactly the no-deleted-at-column error. -/
theorem C6_no_deleted_at_error_witness :
    GenerateSoftDeleteSQL tTable false = ("", some (noDeletedAtMsg "t")) :=
  (C6_no_deleted_at_error tTable false (by decide)).1.mpr (by decide)

/-- C7: for every table with at least one primary key and both modes, update
numbers its SET placeholders `$1..$N` over the non-primary-key columns in
table order (`@<colname>` in named mode), and its WHERE placeholder for the
`n`-th primary key is `$(n + setCount)` where the shared `setCount` counter
left off at 1 + non-PK count and keeps running (`@where_<colname>` in named
mode). -/
theorem C7_update_placeholder_numbering (t : DbTableMeta) (namedParams : Bool)
    (h : 1 ≤ PrimaryKeyCount t) :
    GenerateUpdateSQL t namedParams =
      ("UPDATE \"" ++ t.tableName ++ "\" SET" ++
        updateSetClause namedParams (nonPkCols t) 1 ++ " WHERE" ++
        updateWhereClause namedParams (PrimaryKeyCount t) (pkCols t)
          (1 + (nonPkCols t).length) 1, none) :=
  generateUpdateSQL_eq t namedParams (by omega)

/-- Witness for C7 at the `users` table in positional mode, together with the
fully evaluated statement (`$4` for the primary key: `n = 1` plus the running
counter `setCount = 3`). -/
theorem C7_update_placeholder_numbering_witness :
    GenerateUpdateSQL usersTable false =
      ("UPDATE \"" ++ usersTable.tableName ++ "\" SET" ++
        updateSetClause false (nonPkCols usersTable) 1 ++ " WHERE" ++
        updateWhereClause false (PrimaryKeyCount usersTable)
          (pkCols usersTable) (1 + (nonPkCols usersTable).length) 1, none) ∧
    GenerateUpdateSQL usersTable false =
      ("UPDATE \"users\" SET name = $1, deleted_at = $2 WHERE id = $4",
       none) :=
  ⟨C7_update_placeholder_numbering usersTable false (by decide), rfl⟩

/-- C8: for every table with at least one primary key and both modes, the
insert column list and VALUES list range over exactly the non-auto-increment
columns in table order (hence have equal lengths); a non-auto-increment
primary-key column yields the literal `default` in both modes, and every
other column yields `$(i+1)` positionally — `i` its original index in the
full column list — or `@<colname>` in named mode. -/
theorem C8_insert_columns_values (t : DbTableMeta) (namedParams : Bool)
    (h : 1 ≤ PrimaryKeyCount t) :
    GenerateInsertSQL t namedParams =
      ("INSERT INTO \"" ++ t.tableName ++ "\" (" ++
        insertColumnClause (nonAutoCols t) false ++ ") values ( " ++
        insertValuesClause namedParams (nonAutoIdxCols t) false ++ " )",
       none) ∧
    (nonAutoIdxCols t).map (fun ic => ic.2) = nonAutoCols t ∧
    (nonAutoIdxCols t).length = (nonAutoCols t).length := by
  have hmap : (nonAutoIdxCols t).map (fun ic => ic.2) = nonAutoCols t := by
    simpa [nonAutoIdxCols, nonAutoCols] using
      enumFrom_filter_map_snd (fun c => !c.isAutoIncrement) t.columns 0
  refine ⟨generateInsertSQL_eq t namedParams (by omega), hmap, ?_⟩
  calc (nonAutoIdxCols t).length
      = ((nonAutoIdxCols t).map (fun ic => ic.2)).length := by simp
    _ = (nonAutoCols t).length := by rw [hmap]

/-- Witness for C8 at the `users` table in named mode, together with the fully
evaluated statement (`id` skipped as auto-increment, named placeholders for
the rest). -/
theorem C8_insert_columns_values_witness :
    GenerateInsertSQL usersTable true =
      ("INSERT INTO \"" ++ usersTable.tableName ++ "\" (" ++
        insertColumnClause (nonAutoCols usersTable) false ++ ") values ( " ++
        insertValuesClause true (nonAutoIdxCols usersTable) false ++ " )",
       none) ∧
    GenerateInsertSQL usersTable true =
      ("INSERT INTO \"users\" ( name,  deleted_at) values ( @name, @deleted_at )",
       none) :=
  ⟨(C8_insert_columns_values usersTable true (by decide)).1, rfl⟩

/-- C9: for every table with at least one primary key, select-multi emits one
comparison per primary-key column in table order of the form
`<pk> = ANY(<placeholder>::<declared type>[])`, the declared type used
verbatim in the array cast, with the same placeholder rule as select-one
(`$(i+1)` by original column index positionally, `@where_<colname>_<i+1>` in
named mode); select-one is characterized alongside for comparison. -/
theorem C9_select_multi_any_cast (t : DbTableMeta) (namedParams : Bool)
    (h : 1 ≤ PrimaryKeyCount t) :
    GenerateSelectMultiSQL t namedParams =
      ("SELECT * FROM \"" ++ t.tableName ++ "\" WHERE" ++
        selectMultiWhereClause namedParams (pkIdxCols t) false, none) ∧
    GenerateSelectOneSQL t namedParams =
      ("SELECT * FROM \"" ++ t.tableName ++ "\" WHERE" ++
        selectOneWhereClause namedParams (pkIdxCols t) false, none) :=
  ⟨generateSelectMultiSQL_eq t namedParams (by omega),
   generateSelectOneSQL_eq t namedParams (by omega)⟩

/-- Witness for C9 at table `t` in named mode, together with the fully
evaluated statement. -/
theorem C9_select_multi_any_cast_witness :
    GenerateSelectMultiSQL tTable true =
      ("SELECT * FROM \"" ++ tTable.tableName ++ "\" WHERE" ++
        selectMultiWhereClause true (pkIdxCols tTable) false, none) ∧
    GenerateSelectMultiSQL tTable true =
      ("SELECT * FROM \"t\" WHERE a = ANY(@where_a_1::int[]) AND  b = ANY(@where_b_2::int[])",
       none) :=
  ⟨(C9_select_multi_any_cast tTable true (by decide)).1, rfl⟩

/-- C10: for every table in which every column is a primary key, update still
succeeds with a nil error, and its SET clause is empty: the statement has the
shape `UPDATE "<table>" SET WHERE <pk placeholders...>`. -/
theorem C10_update_all_primary_keys (t : DbTableMeta) (namedParams : Bool)
    (h : 1 ≤ PrimaryKeyCount t)
    (hall : ∀ c ∈ t.columns, c.isPrimaryKey) :
    GenerateUpdateSQL t namedParams =
      ("UPDATE \"" ++ t.tableName ++ "\" SET WHERE" ++
        updateWhereClause namedParams (PrimaryKeyCount t) (pkCols t) 1 1,
       none) ∧
    (GenerateUpdateSQL t namedParams).2 = none := by
  have hnil : nonPkCols t = [] := by
    simp only [nonPkCols]
    refine List.filter_eq_nil_iff.mpr ?_
    intro c hc
    simp [hall c hc]
  have heq := generateUpdateSQL_eq t namedParams (by omega)
  rw [hnil] at heq
  simp only [updateSetClause, List.length_nil, Nat.add_zero] at heq
  constructor
  · rw [heq]
    generalize updateWhereClause namedParams (PrimaryKeyCount t) (pkCols t)
      1 1 = X
    have hlit : ("\" SET" : String) ++ " WHERE" = "\" SET WHERE" := by decide
    simp only [String.append_empty, String.append_assoc]
    rw [← String.append_assoc ("\" SET") (" WHERE") X, hlit]
  · rw [heq]

/-- Witness for C10 at table `t`, whose two columns are both primary keys,
together with the fully evaluated statement. -/
theorem C10_update_all_primary_keys_witness :
    (∀ c ∈ tTable.columns, c.isPrimaryKey) ∧
    GenerateUpdateSQL tTable false =
      ("UPDATE \"" ++ tTable.tableName ++ "\" SET WHERE" ++
        updateWhereClause false (PrimaryKeyCount tTable) (pkCols tTable) 1 1,
       none) ∧
    GenerateUpdateSQL tTable false =
      ("UPDATE \"t\" SET WHERE a = $2 b = $4", none) :=
  ⟨by decide,
   (C10_update_all_primary_keys tTable false (by decide) (by decide)).1,
   rfl⟩

end DbMeta
